import Mathlib

/-!
Shallow embedding of `docs/conf.py`, the Sphinx configuration file of the
repository. The file is a straight-line Python module: a sequence of
top-level assignments of literal values, two imports, and a single call
`sys.path.insert(0, os.path.abspath('../cpp/src'))`. We model it as a list
of statements evaluated over a state consisting of the interpreter's
`sys.path` and the module's binding namespace. The only environment input
is `abspath : String → String`, standing for `os.path.abspath` (which
depends on the working directory); every other right-hand side is a
literal.
-/

namespace ConfPy

/-- Python values occurring in `docs/conf.py`: strings, lists of strings,
and string-to-string dicts. -/
inductive Value where
  | str (s : String)
  | list (ss : List String)
  | dict (kvs : List (String × String))
deriving DecidableEq, Repr

/-- Right-hand sides occurring in `docs/conf.py`: all are literals. -/
inductive Expr where
  | strLit (s : String)
  | listLit (ss : List String)
  | dictLit (kvs : List (String × String))
deriving DecidableEq, Repr

/-- Top-level statements of `docs/conf.py`: an assignment of a literal to a
module-level name, an `import`, or the compound statement
`sys.path.insert(idx, os.path.abspath(rel))`. -/
inductive Stmt where
  | assign (name : String) (e : Expr)
  | importMod (m : String)
  | sysPathInsert (idx : Nat) (rel : String)
deriving DecidableEq, Repr

/-- Python's `list.insert`: insert before position `idx`, appending when
`idx` is past the end. -/
def pyInsert {α : Type} (idx : Nat) (a : α) (xs : List α) : List α :=
  match idx, xs with
  | 0, xs => a :: xs
  | _ + 1, [] => [a]
  | n + 1, x :: xs => x :: pyInsert n a xs

/-- Evaluation state: the interpreter's `sys.path` and the module's
namespace. Bindings are consed at the front, so `List.lookup` sees the most
recent assignment to a name (Python assignment overwrites). -/
structure PyState where
  sysPath : List String
  bindings : List (String × Value)
deriving DecidableEq, Repr

/-- Evaluate a literal expression. -/
def evalExpr : Expr → Value
  | .strLit s => .str s
  | .listLit ss => .list ss
  | .dictLit kvs => .dict kvs

/-- Execute one statement. `abspath` interprets `os.path.abspath`. -/
def evalStmt (abspath : String → String) (st : PyState) : Stmt → PyState
  | .assign n e => { st with bindings := (n, evalExpr e) :: st.bindings }
  | .importMod _ => st
  | .sysPathInsert idx rel => { st with sysPath := pyInsert idx (abspath rel) st.sysPath }

/-- Execute a statement list in order. -/
def evalStmts (abspath : String → String) (st : PyState) (stmts : List Stmt) : PyState :=
  List.foldl (evalStmt abspath) st stmts

/-- The statements of `docs/conf.py`, in source order. -/
def confStmts : List Stmt :=
  [ .assign "project" (.strLit "CANDOR Research Documentation")
  , .assign "copyright" (.strLit "2025, Dalton Burkhart")
  , .assign "author" (.strLit "Dalton Burkhart")
  , .importMod "os"
  , .importMod "sys"
  , .sysPathInsert 0 "../cpp/src"
  , .assign "extensions" (.listLit ["breathe", "sphinx_rtd_theme"])
  , .assign "templates_path" (.listLit ["_templates"])
  , .assign "exclude_patterns" (.listLit ["_build", "Thumbs.db", ".DS_Store"])
  , .assign "breathe_projects"
      (.dictLit [("CANDOR Research Documentation", "./output/xml")])
  , .assign "breathe_default_project" (.strLit "CANDOR Research Documentation")
  , .assign "breathe_default_members" (.listLit ["members"])
  , .assign "highlight_language" (.strLit "c++")
  , .assign "master_doc" (.strLit "index")
  , .assign "html_theme" (.strLit "sphinx_rtd_theme")
  , .assign "html_static_path" (.listLit ["_static"])
  ]

/-- Evaluate `docs/conf.py` from an initial `sys.path`, with an empty
module namespace. -/
def evalConf (abspath : String → String) (sysPath0 : List String) : PyState :=
  evalStmts abspath { sysPath := sysPath0, bindings := [] } confStmts

/-- Whether a statement is the `sys.path.insert` mutation. -/
def isSysPathInsert : Stmt → Bool
  | .sysPathInsert _ _ => true
  | _ => false

/-- The name a statement assigns to, when it is an assignment. -/
def assignName : Stmt → Option String
  | .assign n _ => some n
  | _ => none

/-- Whether a statement assigns to the given name. -/
def assignsTo (n : String) (s : Stmt) : Bool :=
  assignName s == some n

end ConfPy

namespace ConfPy

/-- C1: evaluating the configuration performs exactly one `sys.path`
insertion, and after evaluation the first element of `sys.path` is
`os.path.abspath('../cpp/src')`, for every `abspath` interpretation and
every initial `sys.path`. -/
theorem c1_sys_path_insert (ab : String → String) (l : List String) :
    (confStmts.filter isSysPathInsert).length = 1 ∧
    (evalConf ab l).sysPath.head? = some (ab "../cpp/src") := by
  constructor
  · rfl
  · rfl

/-- C2: after evaluation, `extensions` is the ordered two-element list
`['breathe', 'sphinx_rtd_theme']`. -/
theorem c2_extensions (ab : String → String) (l : List String) :
    (evalConf ab l).bindings.lookup "extensions" =
      some (Value.list ["breathe", "sphinx_rtd_theme"]) := by
  rfl

/-- C3: the string bound to `breathe_default_project` is a key of the
mapping bound to `breathe_projects`, and that mapping sends it to
`'./output/xml'`. -/
theorem c3_breathe_default_in_projects (ab : String → String) (l : List String) :
    ∃ (k : String) (kvs : List (String × String)),
      (evalConf ab l).bindings.lookup "breathe_default_project" = some (Value.str k) ∧
      (evalConf ab l).bindings.lookup "breathe_projects" = some (Value.dict kvs) ∧
      kvs.lookup k = some "./output/xml" := by
  exact ⟨"CANDOR Research Documentation",
    [("CANDOR Research Documentation", "./output/xml")], rfl, rfl, rfl⟩

/-- C4 counterexample: the string bound to `project` is not `"CANDOR"`
(evaluating with the identity as `abspath` and an empty initial
`sys.path`). -/
theorem c4_project_name_counterexample :
    (evalConf (fun s => s) []).bindings.lookup "project" ≠
      some (Value.str "CANDOR") := by
  decide

/-- C4 (amended): the string bound to `project` is
`"CANDOR Research Documentation"`. -/
theorem c4_project_name (ab : String → String) (l : List String) :
    (evalConf ab l).bindings.lookup "project" =
      some (Value.str "CANDOR Research Documentation") := by
  rfl

/-- C5: `templates_path = ['_templates']`,
`exclude_patterns = ['_build', 'Thumbs.db', '.DS_Store']`, and
`html_static_path = ['_static']`, each a list of strings. -/
theorem c5_path_lists (ab : String → String) (l : List String) :
    (evalConf ab l).bindings.lookup "templates_path" =
      some (Value.list ["_templates"]) ∧
    (evalConf ab l).bindings.lookup "exclude_patterns" =
      some (Value.list ["_build", "Thumbs.db", ".DS_Store"]) ∧
    (evalConf ab l).bindings.lookup "html_static_path" =
      some (Value.list ["_static"]) := by
  exact ⟨rfl, rfl, rfl⟩

/-- C6: `html_theme` is the string `'sphinx_rtd_theme'`. -/
theorem c6_html_theme (ab : String → String) (l : List String) :
    (evalConf ab l).bindings.lookup "html_theme" =
      some (Value.str "sphinx_rtd_theme") := by
  rfl

/-- C7: each of `project`, `copyright`, `author` is assigned exactly once
in the statement list, and the final binding of each is the value of that
single assignment. -/
theorem c7_identity_assigned_once (ab : String → String) (l : List String) :
    (confStmts.filter (assignsTo "project") =
        [.assign "project" (.strLit "CANDOR Research Documentation")] ∧
      (evalConf ab l).bindings.lookup "project" =
        some (evalExpr (.strLit "CANDOR Research Documentation"))) ∧
    (confStmts.filter (assignsTo "copyright") =
        [.assign "copyright" (.strLit "2025, Dalton Burkhart")] ∧
      (evalConf ab l).bindings.lookup "copyright" =
        some (evalExpr (.strLit "2025, Dalton Burkhart"))) ∧
    (confStmts.filter (assignsTo "author") =
        [.assign "author" (.strLit "Dalton Burkhart")] ∧
      (evalConf ab l).bindings.lookup "author" =
        some (evalExpr (.strLit "Dalton Burkhart"))) := by
  exact ⟨⟨rfl, rfl⟩, ⟨rfl, rfl⟩, ⟨rfl, rfl⟩⟩

/-- C8: for every initial `sys.path`, evaluation leaves the final
`sys.path` equal to the new entry consed onto the unchanged initial list
(all pre-existing entries preserved in order); the `sys.path` insertion is
the only non-assignment, non-import statement, there is exactly one of it,
and every assignment binds a fresh (pairwise distinct) name. -/
theorem c8_frame (ab : String → String) (l : List String) :
    (evalConf ab l).sysPath = ab "../cpp/src" :: l ∧
    (confStmts.filter isSysPathInsert).length = 1 ∧
    (∀ s ∈ confStmts, isSysPathInsert s = true ∨
      (∃ n e, s = .assign n e) ∨ (∃ m, s = .importMod m)) ∧
    (confStmts.filterMap assignName).Nodup := by
  refine ⟨rfl, rfl, ?_, by decide⟩
  intro s hs
  fin_cases hs
  · exact Or.inr (Or.inl ⟨_, _, rfl⟩)
  · exact Or.inr (Or.inl ⟨_, _, rfl⟩)
  · exact Or.inr (Or.inl ⟨_, _, rfl⟩)
  · exact Or.inr (Or.inr ⟨_, rfl⟩)
  · exact Or.inr (Or.inr ⟨_, rfl⟩)
  · exact Or.inl rfl
  · exact Or.inr (Or.inl ⟨_, _, rfl⟩)
  · exact Or.inr (Or.inl ⟨_, _, rfl⟩)
  · exact Or.inr (Or.inl ⟨_, _, rfl⟩)
  · exact Or.inr (Or.inl ⟨_, _, rfl⟩)
  · exact Or.inr (Or.inl ⟨_, _, rfl⟩)
  · exact Or.inr (Or.inl ⟨_, _, rfl⟩)
  · exact Or.inr (Or.inl ⟨_, _, rfl⟩)
  · exact Or.inr (Or.inl ⟨_, _, rfl⟩)
  · exact Or.inr (Or.inl ⟨_, _, rfl⟩)
  · exact Or.inr (Or.inl ⟨_, _, rfl⟩)

/-- C9: the string bound to `html_theme` is an element of the list bound
to `extensions`. -/
theorem c9_theme_in_extensions (ab : String → String) (l : List String) :
    ∃ (t : String) (exts : List String),
      (evalConf ab l).bindings.lookup "html_theme" = some (Value.str t) ∧
      (evalConf ab l).bindings.lookup "extensions" = some (Value.list exts) ∧
      t ∈ exts := by
  exact ⟨"sphinx_rtd_theme", ["breathe", "sphinx_rtd_theme"], rfl, rfl, by decide⟩

/-- C10: evaluation is deterministic given the working directory: for the
same `abspath` interpretation, two runs from any two initial `sys.path`s
produce identical module bindings and the same inserted `sys.path`
entry. -/
theorem c10_deterministic (ab : String → String) (l₁ l₂ : List String) :
    (evalConf ab l₁).bindings = (evalConf ab l₂).bindings ∧
    (evalConf ab l₁).sysPath.head? = (evalConf ab l₂).sysPath.head? := by
  exact ⟨rfl, rfl⟩

end ConfPy
